import Mathlib

/-!
Verification of the Entity-Resolution & Pre-Aggregation Engine of the
`monitoreo_medios` repository.

The Python modules `analisis/ner_entities.py`, `analisis/agregacion.py`
and `analisis/tendencias.py` are shallowly embedded below: the SQLite
tables become Lean lists of rows, SQL statements become pure functions on
those lists, and the per-run in-memory caches become explicit state.
Definitions keep the Spanish names of the source functions and columns.
-/

namespace Monitoreo

/-! ### Text normalization (`ner_entities.normalizar_texto`)

The Python function lower-cases, strips surrounding whitespace, and
removes diacritics via NFD decomposition followed by dropping combining
marks.  The embedding implements the same transformation for the
character repertoire the system actually handles (ASCII plus the Spanish
accented letters); on that repertoire it agrees with the Python code. -/

/-- Lower-casing of one character: ASCII letters plus the Spanish
accented capitals (Python `str.lower` on this repertoire). -/
def minuscula (c : Char) : Char :=
  if 'A' ≤ c ∧ c ≤ 'Z' then Char.ofNat (c.toNat + 32)
  else if c = 'Á' then 'á'
  else if c = 'É' then 'é'
  else if c = 'Í' then 'í'
  else if c = 'Ó' then 'ó'
  else if c = 'Ú' then 'ú'
  else if c = 'Ü' then 'ü'
  else if c = 'Ñ' then 'ñ'
  else c

/-- NFD decomposition followed by removal of combining marks, restricted
to the Spanish accented letters (all already lower-case at this point). -/
def quitarDiacritico (c : Char) : Char :=
  if c = 'á' then 'a'
  else if c = 'é' then 'e'
  else if c = 'í' then 'i'
  else if c = 'ó' then 'o'
  else if c = 'ú' then 'u'
  else if c = 'ü' then 'u'
  else if c = 'ñ' then 'n'
  else c

/-- Whitespace characters removed by Python `str.strip`. -/
def esEspacio (c : Char) : Bool :=
  c == ' ' || c == '\t' || c == '\n' || c == '\r' || c == '\x0b' || c == '\x0c'

/-- Strip leading and trailing whitespace from a character list. -/
def recortar (l : List Char) : List Char :=
  ((l.dropWhile esEspacio).reverse.dropWhile esEspacio).reverse

/-- The function `normalizar_texto` from `ner_entities.py`: lower-case, strip, remove
diacritics.  (On the empty string the Python early-return and this
definition agree.) -/
def normalizar_texto (t : String) : String :=
  ((recortar (t.data.map minuscula)).map quitarDiacritico).asString

/-! ### Geography configuration and level inference
(`ner_entities.cargar_config_geografia`, `inferir_nivel_geografico`) -/

/-- The dictionary produced by `cargar_config_geografia`: the target
state, the list of Mexican states, the key countries and key companies
(the latter three already normalized at load time). -/
structure GeoConfig where
  estado_objetivo : String
  estados_mexico : List String
  paises_clave : List String
  empresas_clave : List String

/-- The function `inferir_nivel_geografico` from `ner_entities.py`.  The Python
argument is a set of detected place strings; sets enter the function
only through membership tests, so a list argument is faithful. -/
def inferir_nivel_geografico (lugares : List String) (config : GeoConfig) : String :=
  let lugares_norm := lugares.map normalizar_texto
  let paises_no_mexico :=
    config.paises_clave.filter (fun p => !(p == "mexico") && !(p == "méxico"))
  if paises_no_mexico.any (fun p => lugares_norm.contains p) then ("internacional")
  else if lugares_norm.contains config.estado_objetivo then ("estatal")
  else if config.estados_mexico.any (fun e => lugares_norm.contains e) then ("nacional")
  else ("indeterminado")

/-- The mention predicate behind the `internacional` branch of
`inferir_nivel_geografico`: some key country other than the home country
appears among the normalized mentions. -/
def mencionaPaisForaneo (lugares : List String) (config : GeoConfig) : Prop :=
  ∃ p ∈ config.paises_clave, p ≠ "mexico" ∧ p ≠ "méxico" ∧
    p ∈ lugares.map normalizar_texto

/-- The `estatal` branch predicate: the target state is mentioned. -/
def mencionaObjetivo (lugares : List String) (config : GeoConfig) : Prop :=
  config.estado_objetivo ∈ lugares.map normalizar_texto

/-- The `nacional` branch predicate: some configured Mexican state is
mentioned. -/
def mencionaEstado (lugares : List String) (config : GeoConfig) : Prop :=
  ∃ e ∈ config.estados_mexico, e ∈ lugares.map normalizar_texto

lemma cond_internacional (lugares : List String) (config : GeoConfig) :
    ((config.paises_clave.filter (fun p => !(p == "mexico") && !(p == "méxico"))).any
        (fun p => (lugares.map normalizar_texto).contains p) = true) ↔
      mencionaPaisForaneo lugares config := by
  simp [mencionaPaisForaneo, List.any_eq_true, List.mem_filter, and_assoc]

lemma cond_estatal (lugares : List String) (config : GeoConfig) :
    ((lugares.map normalizar_texto).contains config.estado_objetivo = true) ↔
      mencionaObjetivo lugares config := by
  simp [mencionaObjetivo]

lemma cond_nacional (lugares : List String) (config : GeoConfig) :
    (config.estados_mexico.any
        (fun e => (lugares.map normalizar_texto).contains e) = true) ↔
      mencionaEstado lugares config := by
  simp [mencionaEstado, List.any_eq_true]

/-- C4 -- For every set of place mentions and every geography config, the
inferred geographic level follows first-match-wins order: a key country
other than the home country gives `internacional`; otherwise the target
state gives `estatal`; otherwise any other Mexican state gives
`nacional`; otherwise `indeterminado`.  In particular a foreign
key-country mention takes precedence over a simultaneous target-state
mention. -/
theorem inferir_nivel_geografico_orden (lugares : List String) (config : GeoConfig) :
    (inferir_nivel_geografico lugares config = "internacional" ↔
      mencionaPaisForaneo lugares config) ∧
    (inferir_nivel_geografico lugares config = "estatal" ↔
      ¬ mencionaPaisForaneo lugares config ∧ mencionaObjetivo lugares config) ∧
    (inferir_nivel_geografico lugares config = "nacional" ↔
      ¬ mencionaPaisForaneo lugares config ∧ ¬ mencionaObjetivo lugares config ∧
        mencionaEstado lugares config) ∧
    (inferir_nivel_geografico lugares config = "indeterminado" ↔
      ¬ mencionaPaisForaneo lugares config ∧ ¬ mencionaObjetivo lugares config ∧
        ¬ mencionaEstado lugares config) := by
  have h1 := cond_internacional lugares config
  have h2 := cond_estatal lugares config
  have h3 := cond_nacional lugares config
  simp only [inferir_nivel_geografico]
  split_ifs with c1 c2 c3 <;>
    rw [h1] at c1 <;>
    [skip; rw [h2] at c2; rw [h2] at c2; rw [h2] at c2] <;>
    [skip; skip; rw [h3] at c3; rw [h3] at c3] <;>
    refine ⟨?_, ?_, ?_, ?_⟩ <;> simp_all

/-! ### Entity resolution (`ner_entities.get_or_create_entidad`)

State of one NER run: the `entidades` and `entidad_alias` tables plus the
in-memory alias map loaded at the start of the run, and the next
autoincrement id.  SQLite semantics embedded: `INSERT INTO entidades`
fails exactly when the UNIQUE canonical name already exists (the
`except` branch then falls back to a lookup by canonical name), and
`INSERT OR IGNORE INTO entidad_alias` is skipped when the UNIQUE alias is
already present. -/

/-- A row of the `entidades` table. -/
structure Entidad where
  id : Nat
  nombre_canonico : String
  tipo : String
deriving DecidableEq

/-- A row of the `entidad_alias` table (`alias_texto` is the `alias`
column). -/
structure EntidadAlias where
  entidad_id : Nat
  alias_texto : String
  es_principal : Nat
deriving DecidableEq

/-- Run state of the resolver. -/
structure ResolverState where
  entidades : List Entidad
  entidad_alias : List EntidadAlias
  alias_map : List (String × Nat)
  next_id : Nat
deriving DecidableEq

/-- The function `get_or_create_entidad` from `ner_entities.py`.  Returns the resolved
entity id (as the code does, `None` only on an unrecoverable failure,
unreachable here) together with the updated run state. -/
def get_or_create_entidad (s : ResolverState) (nombre tipo : String) :
    Option Nat × ResolverState :=
  let nombre_norm := normalizar_texto nombre
  match s.alias_map.lookup nombre_norm with
  | some eid => (some eid, s)
  | none =>
    match s.entidades.find? (fun e => e.nombre_canonico == nombre) with
    | some e =>
      (some e.id, { s with alias_map := (nombre_norm, e.id) :: s.alias_map })
    | none =>
      (some s.next_id,
        { entidades := s.entidades ++ [⟨s.next_id, nombre, tipo⟩]
          entidad_alias :=
            if s.entidad_alias.any (fun a => a.alias_texto == nombre_norm) then
              s.entidad_alias
            else s.entidad_alias ++ [⟨s.next_id, nombre_norm, 1⟩]
          alias_map := (nombre_norm, s.next_id) :: s.alias_map
          next_id := s.next_id + 1 })

/-- After any resolution the normalized mention is in the alias map and
maps to the returned id. -/
lemma get_or_create_entidad_lookup (s : ResolverState) (nombre tipo : String) :
    ∃ eid, (get_or_create_entidad s nombre tipo).1 = some eid ∧
      (get_or_create_entidad s nombre tipo).2.alias_map.lookup
        (normalizar_texto nombre) = some eid := by
  cases h1 : s.alias_map.lookup (normalizar_texto nombre) with
  | some eid =>
    exact ⟨eid, by simp [get_or_create_entidad, h1], by simp [get_or_create_entidad, h1]⟩
  | none =>
    cases h2 : s.entidades.find? (fun e => e.nombre_canonico == nombre) with
    | some e =>
      exact ⟨e.id, by simp [get_or_create_entidad, h1, h2],
        by simp [get_or_create_entidad, h1, h2, List.lookup]⟩
    | none =>
      exact ⟨s.next_id, by simp [get_or_create_entidad, h1, h2],
        by simp [get_or_create_entidad, h1, h2, List.lookup]⟩

/-- C5 -- Resolving two mention strings with the same normalization within
one run returns the same entity id, and the second resolution is a cache
hit: it performs no write at all (the state is unchanged). -/
theorem resolver_determinista (s : ResolverState) (n1 t1 n2 t2 : String)
    (h : normalizar_texto n1 = normalizar_texto n2) :
    ∃ eid,
      (get_or_create_entidad s n1 t1).1 = some eid ∧
      (get_or_create_entidad (get_or_create_entidad s n1 t1).2 n2 t2).1 = some eid ∧
      (get_or_create_entidad (get_or_create_entidad s n1 t1).2 n2 t2).2 =
        (get_or_create_entidad s n1 t1).2 := by
  obtain ⟨eid, hres, hmap⟩ := get_or_create_entidad_lookup s n1 t1
  have hmap2 : ((get_or_create_entidad s n1 t1).2).alias_map.lookup
      (normalizar_texto n2) = some eid := h ▸ hmap
  generalize hgen : (get_or_create_entidad s n1 t1).2 = s1 at hmap2 ⊢
  refine ⟨eid, hres, ?_, ?_⟩ <;> simp [get_or_create_entidad, hmap2]

/-- Witness for C5 at a concrete input: two surface forms differing in
case and diacritics resolve to the same entity id, the second without a
write. -/
theorem resolver_determinista_testigo :
    normalizar_texto ("México") = normalizar_texto ("MEXICO") ∧
    ∃ eid,
      (get_or_create_entidad ⟨[], [], [], 0⟩ ("México") ("LOC")).1 = some eid ∧
      (get_or_create_entidad
        (get_or_create_entidad ⟨[], [], [], 0⟩ ("México") ("LOC")).2 ("MEXICO") ("LOC")).1 =
          some eid ∧
      (get_or_create_entidad
        (get_or_create_entidad ⟨[], [], [], 0⟩ ("México") ("LOC")).2 ("MEXICO") ("LOC")).2 =
          (get_or_create_entidad ⟨[], [], [], 0⟩ ("México") ("LOC")).2 :=
  ⟨by decide, resolver_determinista ⟨[], [], [], 0⟩ ("México") ("LOC") "MEXICO" "LOC" (by decide)⟩

/-! ### Item-entity links (`ner_entities.ejecutar_ner`, link insertion)

For each resolved entity of an item the code runs
`INSERT OR IGNORE INTO noticia_entidad (noticia_id, entidad_id, rol)
VALUES (?, ?, 'mencionado')`.  The table's primary key is
`(noticia_id, entidad_id)` and `frecuencia` has default 1
(migration 002), so a duplicate insert is ignored and the `frecuencia`
column is never touched after the first insert. -/

/-- A row of the `noticia_entidad` table. -/
structure NoticiaEntidad where
  noticia_id : Nat
  entidad_id : Nat
  rol : String
  frecuencia : Int
deriving DecidableEq

/-- The `INSERT OR IGNORE INTO noticia_entidad` statement: a new row with
the column defaults is appended unless the primary key
`(noticia_id, entidad_id)` is already present. -/
def insertar_enlace (tabla : List NoticiaEntidad) (nid eid : Nat) :
    List NoticiaEntidad :=
  if tabla.any (fun r => r.noticia_id == nid && r.entidad_id == eid) then tabla
  else tabla ++ [⟨nid, eid, "mencionado", 1⟩]

/-- Combined state of the entity-link loop in `ejecutar_ner`: the
resolver run state plus the `noticia_entidad` table. -/
structure EstadoNer where
  resolver : ResolverState
  noticia_entidad : List NoticiaEntidad
deriving DecidableEq

/-- One iteration of the entity loop in `ejecutar_ner`: resolve the
mention, then insert the link (ignored when the pair exists). -/
def procesar_mencion (s : EstadoNer) (nid : Nat) (nombre tipo : String) : EstadoNer :=
  match get_or_create_entidad s.resolver nombre tipo with
  | (some eid, rs) => ⟨rs, insertar_enlace s.noticia_entidad nid eid⟩
  | (none, rs) => ⟨rs, s.noticia_entidad⟩

/-- The entity loop of `ejecutar_ner` over a list of (mention, type)
pairs for one item. -/
def procesar_menciones (s : EstadoNer) (nid : Nat)
    (menciones : List (String × String)) : EstadoNer :=
  menciones.foldl (fun st m => procesar_mencion st nid m.1 m.2) s

/-- The primary-key projection of a link row. -/
def claveEnlace (r : NoticiaEntidad) : Nat × Nat := (r.noticia_id, r.entidad_id)

lemma insertar_enlace_nodup (tabla : List NoticiaEntidad) (nid eid : Nat)
    (h : (tabla.map claveEnlace).Nodup) :
    ((insertar_enlace tabla nid eid).map claveEnlace).Nodup := by
  unfold insertar_enlace
  split_ifs with hmem
  · exact h
  · simp only [List.map_append, List.map_cons, List.map_nil, List.nodup_append]
    refine ⟨h, List.nodup_singleton _, ?_⟩
    intro k hk hk1
    simp only [List.mem_singleton] at hk1
    obtain ⟨r, hr, hkr⟩ := List.mem_map.mp hk
    have hne : ¬ (r.noticia_id = nid ∧ r.entidad_id = eid) := by
      intro hc
      exact hmem (List.any_eq_true.mpr ⟨r, hr, by simp [hc.1, hc.2]⟩)
    apply hne
    have hpair : (r.noticia_id, r.entidad_id) = (nid, eid) := by
      simpa [claveEnlace] using hkr.trans hk1
    exact ⟨congrArg Prod.fst hpair, congrArg Prod.snd hpair⟩

lemma insertar_enlace_existente (tabla : List NoticiaEntidad) (nid eid : Nat)
    (h : ∃ r ∈ tabla, r.noticia_id = nid ∧ r.entidad_id = eid) :
    insertar_enlace tabla nid eid = tabla := by
  obtain ⟨r, hr, h1, h2⟩ := h
  unfold insertar_enlace
  rw [if_pos (List.any_eq_true.mpr ⟨r, hr, by simp [h1, h2]⟩)]

/-- C3 (amended) -- At most one `noticia_entidad` row ever exists per
(item, entity) pair: processing any mention list preserves the
primary-key uniqueness of the table, and re-inserting an existing pair
leaves the table (in particular the stored `frecuencia`, which stays at
its default) completely unchanged. -/
theorem enlace_unico_por_par (s : EstadoNer) (nid : Nat)
    (menciones : List (String × String))
    (h : (s.noticia_entidad.map claveEnlace).Nodup) :
    (((procesar_menciones s nid menciones).noticia_entidad.map claveEnlace).Nodup) ∧
    (∀ tabla (nid' eid' : Nat),
      (∃ r ∈ tabla, r.noticia_id = nid' ∧ r.entidad_id = eid') →
        insertar_enlace tabla nid' eid' = tabla) := by
  refine ⟨?_, fun tabla nid' eid' hx => insertar_enlace_existente tabla nid' eid' hx⟩
  induction menciones generalizing s with
  | nil => exact h
  | cons m rest ih =>
    have hstep : ((procesar_mencion s nid m.1 m.2).noticia_entidad.map claveEnlace).Nodup := by
      unfold procesar_mencion
      cases hg : get_or_create_entidad s.resolver m.1 m.2 with
      | mk fst snd =>
        cases fst with
        | some eid => exact insertar_enlace_nodup _ _ _ h
        | none => exact h
    exact ih (procesar_mencion s nid m.1 m.2) hstep

/-- Witness for C3's amended theorem at a concrete input. -/
theorem enlace_unico_por_par_testigo :
    (((⟨⟨[], [], [], 0⟩, []⟩ : EstadoNer).noticia_entidad.map claveEnlace).Nodup) ∧
    ((((procesar_menciones ⟨⟨[], [], [], 0⟩, []⟩ 1
        [("México", "LOC"), ("Mexico", "LOC")]).noticia_entidad.map claveEnlace).Nodup) ∧
      (∀ tabla (nid' eid' : Nat),
        (∃ r ∈ tabla, r.noticia_id = nid' ∧ r.entidad_id = eid') →
          insertar_enlace tabla nid' eid' = tabla)) :=
  ⟨by decide, enlace_unico_por_par ⟨⟨[], [], [], 0⟩, []⟩ 1
    [("México", "LOC"), ("Mexico", "LOC")] (by decide)⟩

/-- C3 counterexample -- two surface forms of the same entity mentioned
for one item: the resulting table holds the single link row with
`frecuencia = 1` (the column default); the frequency is NOT incremented
to 2 as the claim states. -/
theorem frecuencia_no_incrementada_contraejemplo :
    (procesar_menciones ⟨⟨[], [], [], 0⟩, []⟩ 1
        [("México", "LOC"), ("Mexico", "LOC")]).noticia_entidad =
      [⟨1, 0, "mencionado", 1⟩] ∧
    ¬ ∃ r ∈ (procesar_menciones ⟨⟨[], [], [], 0⟩, []⟩ 1
        [("México", "LOC"), ("Mexico", "LOC")]).noticia_entidad,
      r.frecuencia = 2 := by
  constructor
  · decide
  · decide

/-! ### Aggregation engine (`analisis/agregacion.py`)

Dates are modelled as natural day numbers (the value of SQLite
`DATE(fecha)`), timestamps (`CURRENT_TIMESTAMP`) as a natural number
passed in as `ahora`.  Nullable columns are `Option`s.  Each of the five
`calcular_*` functions opens its own connection and commits its own
transaction (`analisis/utils.get_db_connection` neither commits nor
rolls back; each function calls `conn.commit()` itself). -/

/-- A row of the `noticias` table, restricted to the columns the
aggregation queries read. -/
structure Noticia where
  id : Nat
  fecha : Option Nat
  medio : Option String
  relevante : Option Int
  riesgo : Int
  oportunidad : Int
  requiere_analisis_profundo : Int
  region_id : Option Int
  nivel_geografico : Option String
deriving DecidableEq

/-- A row of the `noticia_tema` junction table. -/
structure NoticiaTema where
  noticia_id : Nat
  tema_id : Nat
  score : Int
deriving DecidableEq

/-- A row of `agregacion_diaria` (primary key `fecha`). -/
structure FilaDiaria where
  fecha : Nat
  total_noticias : Nat
  total_relevantes : Nat
  total_riesgo : Nat
  total_oportunidad : Nat
  total_mixto : Nat
  medios_activos : Nat
  requieren_analisis : Nat
  fecha_calculo : Nat
deriving DecidableEq

/-- A row of `agregacion_tema_diaria` (primary key `(fecha, tema_id)`). -/
structure FilaTema where
  fecha : Nat
  tema_id : Nat
  total_noticias : Nat
  total_riesgo : Nat
  total_oportunidad : Nat
  score_promedio : ℚ
deriving DecidableEq

/-- A row of `agregacion_region_diaria` (primary key
`(fecha, region_id, nivel_geografico)`; the `region_id` column is
nullable in the schema, hence `Option Int`). -/
structure FilaRegion where
  fecha : Nat
  region_id : Option Int
  nivel_geografico : String
  total_noticias : Nat
  total_riesgo : Nat
  total_oportunidad : Nat
deriving DecidableEq

/-- A row of `agregacion_entidad_diaria` (primary key
`(fecha, entidad_id)`). -/
structure FilaEntidad where
  fecha : Nat
  entidad_id : Nat
  menciones : Nat
  noticias_riesgo : Nat
  noticias_oportunidad : Nat
  frecuencia_total : Int
deriving DecidableEq

/-- A row of `agregacion_medio_diaria` (primary key `(fecha, medio)`). -/
structure FilaMedio where
  fecha : Nat
  medio : Option String
  total_noticias : Nat
  total_relevantes : Nat
  total_riesgo : Nat
  total_oportunidad : Nat
deriving DecidableEq

/-- The database state seen by the aggregation engine. -/
structure Estado where
  noticias : List Noticia
  noticia_tema : List NoticiaTema
  noticia_entidad : List NoticiaEntidad
  agregacion_diaria : List FilaDiaria
  agregacion_tema_diaria : List FilaTema
  agregacion_region_diaria : List FilaRegion
  agregacion_entidad_diaria : List FilaEntidad
  agregacion_medio_diaria : List FilaMedio
deriving DecidableEq

/-- The items with `DATE(fecha) = d` (`WHERE DATE(fecha) = ?`; a NULL
`fecha` never matches). -/
def itemsDelDia (s : Estado) (d : Nat) : List Noticia :=
  s.noticias.filter (fun n => n.fecha == some d)

/-- The relevant items of the day (`WHERE DATE(fecha) = ? AND
relevante = 1`). -/
def itemsRelevantesDelDia (s : Estado) (d : Nat) : List Noticia :=
  (itemsDelDia s d).filter (fun n => n.relevante == some 1)

/-- The row computed by the SELECT of `calcular_agregacion_diaria` for a
day with data. -/
def filaDiariaCompleta (s : Estado) (d ahora : Nat) : FilaDiaria :=
  { fecha := d
    total_noticias := (itemsDelDia s d).length
    total_relevantes := (itemsDelDia s d).countP (fun n => n.relevante == some 1)
    total_riesgo := (itemsDelDia s d).countP (fun n => n.riesgo == 1)
    total_oportunidad := (itemsDelDia s d).countP (fun n => n.oportunidad == 1)
    total_mixto := (itemsDelDia s d).countP (fun n => n.riesgo == 1 && n.oportunidad == 1)
    medios_activos := ((itemsDelDia s d).filterMap Noticia.medio).dedup.length
    requieren_analisis := (itemsDelDia s d).countP
      (fun n => n.requiere_analisis_profundo == 1)
    fecha_calculo := ahora }

/-- The single group computed by the SELECT of
`calcular_agregacion_diaria`: `none` when the day has no items (the
GROUP BY then yields no row and nothing is written). -/
def filaGlobal (s : Estado) (d ahora : Nat) : Option FilaDiaria :=
  if (itemsDelDia s d).isEmpty then none else some (filaDiariaCompleta s d ahora)

/-- The function `calcular_agregacion_diaria`: `INSERT OR REPLACE` keyed on `fecha`
(the conflicting row is deleted, the fresh row inserted; nothing happens
when the day has no items). -/
def calcular_agregacion_diaria (d ahora : Nat) (s : Estado) : Estado :=
  { s with agregacion_diaria :=
      match filaGlobal s d ahora with
      | none => s.agregacion_diaria
      | some r => (s.agregacion_diaria.filter (fun f => !(f.fecha == d))) ++ [r] }

/-- The join `noticias JOIN noticia_tema` restricted to day `d`. -/
def paresTema (s : Estado) (d : Nat) : List (Noticia × NoticiaTema) :=
  (itemsDelDia s d).flatMap (fun n =>
    (s.noticia_tema.filter (fun nt => nt.noticia_id == n.id)).map (fun nt => (n, nt)))

/-- The rows produced by the GROUP BY of
`calcular_agregacion_tema_diaria`. -/
def filasTema (s : Estado) (d : Nat) : List FilaTema :=
  ((paresTema s d).map (fun p => p.2.tema_id)).dedup.map (fun k =>
    let grupo := (paresTema s d).filter (fun p => p.2.tema_id == k)
    { fecha := d
      tema_id := k
      total_noticias := grupo.length
      total_riesgo := grupo.countP (fun p => p.1.riesgo == 1)
      total_oportunidad := grupo.countP (fun p => p.1.oportunidad == 1)
      score_promedio := ((grupo.map (fun p => p.2.score)).sum : ℚ) / (grupo.length : ℚ) })

/-- The function `calcular_agregacion_tema_diaria`: DELETE the day's rows, then INSERT
the freshly computed groups. -/
def calcular_agregacion_tema_diaria (d : Nat) (s : Estado) : Estado :=
  { s with agregacion_tema_diaria :=
      (s.agregacion_tema_diaria.filter (fun f => !(f.fecha == d))) ++ filasTema s d }

/-- The GROUP BY key of the region aggregation:
`COALESCE(region_id, -1)` and the raw (nullable) `nivel_geografico`. -/
def claveRegion (n : Noticia) : Int × Option String :=
  (n.region_id.getD (-1), n.nivel_geografico)

/-- The rows produced by the GROUP BY of
`calcular_agregacion_region_diaria` (only `relevante = 1` items; the
SELECT emits `COALESCE(region_id, -1)` and
`COALESCE(nivel_geografico, 'indeterminado')`). -/
def filasRegion (s : Estado) (d : Nat) : List FilaRegion :=
  ((itemsRelevantesDelDia s d).map claveRegion).dedup.map (fun k =>
    let grupo := (itemsRelevantesDelDia s d).filter (fun n => claveRegion n == k)
    { fecha := d
      region_id := some k.1
      nivel_geografico := k.2.getD ("indeterminado")
      total_noticias := grupo.length
      total_riesgo := grupo.countP (fun n => n.riesgo == 1)
      total_oportunidad := grupo.countP (fun n => n.oportunidad == 1) })

/-- The function `calcular_agregacion_region_diaria`: DELETE then INSERT. -/
def calcular_agregacion_region_diaria (d : Nat) (s : Estado) : Estado :=
  { s with agregacion_region_diaria :=
      (s.agregacion_region_diaria.filter (fun f => !(f.fecha == d))) ++ filasRegion s d }

/-- The join `noticias JOIN noticia_entidad` restricted to day `d`. -/
def paresEntidad (s : Estado) (d : Nat) : List (Noticia × NoticiaEntidad) :=
  (itemsDelDia s d).flatMap (fun n =>
    (s.noticia_entidad.filter (fun ne => ne.noticia_id == n.id)).map (fun ne => (n, ne)))

/-- The rows produced by the GROUP BY of
`calcular_agregacion_entidad_diaria`. -/
def filasEntidad (s : Estado) (d : Nat) : List FilaEntidad :=
  ((paresEntidad s d).map (fun p => p.2.entidad_id)).dedup.map (fun k =>
    let grupo := (paresEntidad s d).filter (fun p => p.2.entidad_id == k)
    { fecha := d
      entidad_id := k
      menciones := grupo.length
      noticias_riesgo := grupo.countP (fun p => p.1.riesgo == 1)
      noticias_oportunidad := grupo.countP (fun p => p.1.oportunidad == 1)
      frecuencia_total := (grupo.map (fun p => p.2.frecuencia)).sum })

/-- The function `calcular_agregacion_entidad_diaria`: DELETE then INSERT. -/
def calcular_agregacion_entidad_diaria (d : Nat) (s : Estado) : Estado :=
  { s with agregacion_entidad_diaria :=
      (s.agregacion_entidad_diaria.filter (fun f => !(f.fecha == d))) ++ filasEntidad s d }

/-- The rows produced by the GROUP BY of
`calcular_agregacion_medio_diaria` (grouped by the nullable `medio`). -/
def filasMedio (s : Estado) (d : Nat) : List FilaMedio :=
  ((itemsDelDia s d).map Noticia.medio).dedup.map (fun k =>
    let grupo := (itemsDelDia s d).filter (fun n => n.medio == k)
    { fecha := d
      medio := k
      total_noticias := grupo.length
      total_relevantes := grupo.countP (fun n => n.relevante == some 1)
      total_riesgo := grupo.countP (fun n => n.riesgo == 1)
      total_oportunidad := grupo.countP (fun n => n.oportunidad == 1) })

/-- The function `calcular_agregacion_medio_diaria`: DELETE then INSERT. -/
def calcular_agregacion_medio_diaria (d : Nat) (s : Estado) : Estado :=
  { s with agregacion_medio_diaria :=
      (s.agregacion_medio_diaria.filter (fun f => !(f.fecha == d))) ++ filasMedio s d }

/-- The function `ejecutar_agregaciones`: the five per-dimension computations run in
sequence, each one its own committed transaction. -/
def ejecutar_agregaciones (d ahora : Nat) (s : Estado) : Estado :=
  calcular_agregacion_medio_diaria d
    (calcular_agregacion_entidad_diaria d
      (calcular_agregacion_region_diaria d
        (calcular_agregacion_tema_diaria d
          (calcular_agregacion_diaria d ahora s))))

/-- The i-th of the five steps of `ejecutar_agregaciones`. -/
def pasoAgregacion (i : Nat) (d ahora : Nat) (s : Estado) : Estado :=
  match i with
  | 0 => calcular_agregacion_diaria d ahora s
  | 1 => calcular_agregacion_tema_diaria d s
  | 2 => calcular_agregacion_region_diaria d s
  | 3 => calcular_agregacion_entidad_diaria d s
  | _ => calcular_agregacion_medio_diaria d s

/-- The state after the first `k` steps of `ejecutar_agregaciones` have
committed and the remaining steps have not run - exactly the persisted
state when step `k` raises: the failing step's own transaction is never
committed, but the previously committed steps are not rolled back. -/
def ejecutar_agregaciones_parcial (d ahora : Nat) (s : Estado) : Nat → Estado
  | 0 => s
  | k + 1 =>
    if k < 5 then
      pasoAgregacion k d ahora (ejecutar_agregaciones_parcial d ahora s k)
    else ejecutar_agregaciones_parcial d ahora s k

lemma ejecutar_noticias (d a : Nat) (s : Estado) :
    (ejecutar_agregaciones d a s).noticias = s.noticias := rfl

lemma ejecutar_diaria (d a : Nat) (s : Estado) :
    (ejecutar_agregaciones d a s).agregacion_diaria =
      match filaGlobal s d a with
      | none => s.agregacion_diaria
      | some r => (s.agregacion_diaria.filter (fun f => !(f.fecha == d))) ++ [r] := rfl

lemma ejecutar_tema (d a : Nat) (s : Estado) :
    (ejecutar_agregaciones d a s).agregacion_tema_diaria =
      (s.agregacion_tema_diaria.filter (fun f => !(f.fecha == d))) ++ filasTema s d := rfl

lemma ejecutar_region (d a : Nat) (s : Estado) :
    (ejecutar_agregaciones d a s).agregacion_region_diaria =
      (s.agregacion_region_diaria.filter (fun f => !(f.fecha == d))) ++ filasRegion s d := rfl

lemma ejecutar_entidad (d a : Nat) (s : Estado) :
    (ejecutar_agregaciones d a s).agregacion_entidad_diaria =
      (s.agregacion_entidad_diaria.filter (fun f => !(f.fecha == d))) ++ filasEntidad s d := rfl

lemma ejecutar_medio (d a : Nat) (s : Estado) :
    (ejecutar_agregaciones d a s).agregacion_medio_diaria =
      (s.agregacion_medio_diaria.filter (fun f => !(f.fecha == d))) ++ filasMedio s d := rfl

/-- Replacing the rows of a date and then replacing them again with rows
that all carry that date is the same as replacing once. -/
lemma reemplazo_filtrado {α : Type} (p : α → Bool) (t nuevo : List α)
    (h : ∀ f ∈ nuevo, p f = false) :
    (t.filter p ++ nuevo).filter p = t.filter p := by
  rw [List.filter_append]
  have h1 : nuevo.filter p = [] := List.filter_eq_nil_iff.mpr (by intro a ha; simp [h a ha])
  have h2 : (t.filter p).filter p = t.filter p := by rw [List.filter_filter]; simp
  rw [h1, h2, List.append_nil]

lemma filasTema_fecha (s : Estado) (d : Nat) : ∀ f ∈ filasTema s d, f.fecha = d := by
  intro f hf
  obtain ⟨k, _, rfl⟩ := List.mem_map.mp hf
  rfl

lemma filasRegion_fecha (s : Estado) (d : Nat) : ∀ f ∈ filasRegion s d, f.fecha = d := by
  intro f hf
  obtain ⟨k, _, rfl⟩ := List.mem_map.mp hf
  rfl

lemma filasEntidad_fecha (s : Estado) (d : Nat) : ∀ f ∈ filasEntidad s d, f.fecha = d := by
  intro f hf
  obtain ⟨k, _, rfl⟩ := List.mem_map.mp hf
  rfl

lemma filasMedio_fecha (s : Estado) (d : Nat) : ∀ f ∈ filasMedio s d, f.fecha = d := by
  intro f hf
  obtain ⟨k, _, rfl⟩ := List.mem_map.mp hf
  rfl

/-- The numeric fields of a global aggregate row: everything except the
`fecha_calculo` timestamp (which `CURRENT_TIMESTAMP` changes between
runs). -/
def filaDiariaNumerica (r : FilaDiaria) :
    Nat × Nat × Nat × Nat × Nat × Nat × Nat × Nat :=
  (r.fecha, r.total_noticias, r.total_relevantes, r.total_riesgo,
   r.total_oportunidad, r.total_mixto, r.medios_activos, r.requieren_analisis)

/-- The two runs of the global SELECT at different timestamps either both
produce no row or produce rows for date `d` agreeing on every numeric
field. -/
lemma filaGlobal_casos (s : Estado) (d a1 a2 : Nat) :
    (filaGlobal s d a1 = none ∧ filaGlobal s d a2 = none) ∨
    (∃ r1 r2, filaGlobal s d a1 = some r1 ∧ filaGlobal s d a2 = some r2 ∧
      r1.fecha = d ∧ r2.fecha = d ∧
      filaDiariaNumerica r1 = filaDiariaNumerica r2) := by
  unfold filaGlobal
  by_cases h : (itemsDelDia s d).isEmpty <;>
    simp [h, filaDiariaNumerica, filaDiariaCompleta]

/-- C2 -- For every date and every fixed underlying item/link state,
running `ejecutar_agregaciones` twice in a row leaves exactly the same
rows in all five aggregate tables, with identical values in every
numeric field (only the `fecha_calculo` timestamp of the global row may
differ; the four dimensional tables are literally equal). -/
theorem ejecutar_agregaciones_idempotente (s : Estado) (d a1 a2 : Nat) :
    ((ejecutar_agregaciones d a2 (ejecutar_agregaciones d a1 s)).agregacion_diaria.map
        filaDiariaNumerica =
      (ejecutar_agregaciones d a1 s).agregacion_diaria.map filaDiariaNumerica) ∧
    ((ejecutar_agregaciones d a2 (ejecutar_agregaciones d a1 s)).agregacion_tema_diaria =
      (ejecutar_agregaciones d a1 s).agregacion_tema_diaria) ∧
    ((ejecutar_agregaciones d a2 (ejecutar_agregaciones d a1 s)).agregacion_region_diaria =
      (ejecutar_agregaciones d a1 s).agregacion_region_diaria) ∧
    ((ejecutar_agregaciones d a2 (ejecutar_agregaciones d a1 s)).agregacion_entidad_diaria =
      (ejecutar_agregaciones d a1 s).agregacion_entidad_diaria) ∧
    ((ejecutar_agregaciones d a2 (ejecutar_agregaciones d a1 s)).agregacion_medio_diaria =
      (ejecutar_agregaciones d a1 s).agregacion_medio_diaria) := by
  refine ⟨?_, ?_, ?_, ?_, ?_⟩
  · have hg2 : filaGlobal (ejecutar_agregaciones d a1 s) d a2 = filaGlobal s d a2 := rfl
    rcases filaGlobal_casos s d a1 a2 with ⟨h1, h2⟩ | ⟨r1, r2, h1, h2, hf1, hf2, hnum⟩
    · simp only [ejecutar_diaria, hg2, h2, h1]
    · have hr1 : ∀ f ∈ [r1], (!(f.fecha == d)) = false := by
        intro f hf
        simp only [List.mem_singleton] at hf
        simp [hf, hf1]
      simp only [ejecutar_diaria, hg2, h2, h1]
      rw [reemplazo_filtrado _ _ [r1] hr1, List.map_append, List.map_append]
      simp [hnum]
  · rw [ejecutar_tema d a2 (ejecutar_agregaciones d a1 s),
      show filasTema (ejecutar_agregaciones d a1 s) d = filasTema s d from rfl,
      ejecutar_tema d a1 s,
      reemplazo_filtrado _ _ (filasTema s d)
        (by intro f hf; simp [filasTema_fecha s d f hf])]
  · rw [ejecutar_region d a2 (ejecutar_agregaciones d a1 s),
      show filasRegion (ejecutar_agregaciones d a1 s) d = filasRegion s d from rfl,
      ejecutar_region d a1 s,
      reemplazo_filtrado _ _ (filasRegion s d)
        (by intro f hf; simp [filasRegion_fecha s d f hf])]
  · rw [ejecutar_entidad d a2 (ejecutar_agregaciones d a1 s),
      show filasEntidad (ejecutar_agregaciones d a1 s) d = filasEntidad s d from rfl,
      ejecutar_entidad d a1 s,
      reemplazo_filtrado _ _ (filasEntidad s d)
        (by intro f hf; simp [filasEntidad_fecha s d f hf])]
  · rw [ejecutar_medio d a2 (ejecutar_agregaciones d a1 s),
      show filasMedio (ejecutar_agregaciones d a1 s) d = filasMedio s d from rfl,
      ejecutar_medio d a1 s,
      reemplazo_filtrado _ _ (filasMedio s d)
        (by intro f hf; simp [filasMedio_fecha s d f hf])]

/-- C1 (amended) -- `ejecutar_agregaciones` is NOT one atomic transaction
over the five aggregate tables: each per-dimension computation commits
on its own.  When step `k` fails, the base tables are untouched, the
failing step and the steps after it leave their tables exactly as before
the run, and every step before `k` has already committed its fresh
rows - identical to the corresponding table of a full successful run. -/
theorem agregaciones_fallo_parcial_por_tabla (s : Estado) (d ahora k : Nat)
    (hk : k ≤ 5) :
    ((ejecutar_agregaciones_parcial d ahora s k).noticias = s.noticias) ∧
    ((ejecutar_agregaciones_parcial d ahora s k).noticia_tema = s.noticia_tema) ∧
    ((ejecutar_agregaciones_parcial d ahora s k).noticia_entidad = s.noticia_entidad) ∧
    ((ejecutar_agregaciones_parcial d ahora s k).agregacion_diaria =
      if 1 ≤ k then (ejecutar_agregaciones d ahora s).agregacion_diaria
      else s.agregacion_diaria) ∧
    ((ejecutar_agregaciones_parcial d ahora s k).agregacion_tema_diaria =
      if 2 ≤ k then (ejecutar_agregaciones d ahora s).agregacion_tema_diaria
      else s.agregacion_tema_diaria) ∧
    ((ejecutar_agregaciones_parcial d ahora s k).agregacion_region_diaria =
      if 3 ≤ k then (ejecutar_agregaciones d ahora s).agregacion_region_diaria
      else s.agregacion_region_diaria) ∧
    ((ejecutar_agregaciones_parcial d ahora s k).agregacion_entidad_diaria =
      if 4 ≤ k then (ejecutar_agregaciones d ahora s).agregacion_entidad_diaria
      else s.agregacion_entidad_diaria) ∧
    ((ejecutar_agregaciones_parcial d ahora s k).agregacion_medio_diaria =
      if 5 ≤ k then (ejecutar_agregaciones d ahora s).agregacion_medio_diaria
      else s.agregacion_medio_diaria) := by
  interval_cases k <;>
    refine ⟨rfl, rfl, rfl, ?_, ?_, ?_, ?_, ?_⟩ <;>
    simp only [Nat.reduceLeDiff, if_true, if_false, Nat.le_refl] <;>
    rfl

/-- An item dated day 0, used by the concrete C1 scenario. -/
def noticiaEjemplo : Noticia :=
  { id := 1, fecha := some 0, medio := some ("diario"), relevante := some 1,
    riesgo := 0, oportunidad := 0, requiere_analisis_profundo := 0,
    region_id := none, nivel_geografico := none }

/-- A database holding one item dated day 0 and empty aggregate tables. -/
def estadoEjemplo : Estado := ⟨[noticiaEjemplo], [], [], [], [], [], [], []⟩

/-- C1 counterexample -- the run in which the global step committed and
the topic step then failed (only the first of the five steps ran):
the global aggregate table for the date now differs from its pre-run
state, so the writes of the failed date DID persist in part - the five
computations are not one atomic transaction. -/
theorem agregaciones_no_atomicas_contraejemplo :
    ¬ ((ejecutar_agregaciones_parcial 0 7 estadoEjemplo 1).agregacion_diaria =
        estadoEjemplo.agregacion_diaria) := by decide

/-- Witness for C1's amended theorem: with two steps committed before the
failure, the region table is still exactly the pre-run one. -/
theorem agregaciones_fallo_parcial_testigo :
    (2 : Nat) ≤ 5 ∧
    ((ejecutar_agregaciones_parcial 0 7 estadoEjemplo 2).agregacion_region_diaria =
      estadoEjemplo.agregacion_region_diaria) := by
  refine ⟨by decide, ?_⟩
  have h := (agregaciones_fallo_parcial_por_tabla estadoEjemplo 0 7 2 (by decide)).2.2.2.2.2.1
  simpa using h

/-- Summing the group sizes of a GROUP BY over the distinct keys gives
back the number of grouped rows. -/
lemma suma_cuentas_grupos {α κ : Type} [DecidableEq κ] (key : α → κ) (l : List α) :
    ((l.map key).dedup.map (fun k => l.countP (fun x => decide (key x = k)))).sum =
      l.length := by
  have h1 : ∀ k : κ, l.countP (fun x => decide (key x = k)) = (l.map key).count k := by
    intro k
    rw [List.count, List.countP_map]
    rfl
  calc ((l.map key).dedup.map (fun k => l.countP (fun x => decide (key x = k)))).sum
      = ((l.map key).dedup.map (fun k => (l.map key).count k)).sum := by simp only [h1]
    _ = (l.map key).length := List.sum_map_count_dedup_eq_length _
    _ = l.length := List.length_map _ _

/-- The per-group totals of the region aggregation sum to the number of
relevant items of the day. -/
lemma filasRegion_suma_totales (s : Estado) (d : Nat) :
    ((filasRegion s d).map (fun f => f.total_noticias)).sum =
      (itemsRelevantesDelDia s d).length := by
  have h : (filasRegion s d).map (fun f => f.total_noticias) =
      ((itemsRelevantesDelDia s d).map claveRegion).dedup.map
        (fun k => (itemsRelevantesDelDia s d).countP
          (fun n => decide (claveRegion n = k))) := by
    unfold filasRegion
    rw [List.map_map]
    apply List.map_congr_left
    intro k _
    show ((itemsRelevantesDelDia s d).filter (fun n => claveRegion n == k)).length = _
    rw [show (fun n => claveRegion n == k) = (fun n => decide (claveRegion n = k)) from
      funext (fun n => by by_cases hek : claveRegion n = k <;> simp [hek])]
    rw [List.countP_eq_length_filter]
  rw [h]
  exact suma_cuentas_grupos claveRegion (itemsRelevantesDelDia s d)

/-- C6 -- Relevant items of the day with no resolved region are counted
under the reserved sentinel key -1, and every region-aggregate row
written for the date carries a non-null region key, so the
(date, region, geo-level) composite primary key is fully defined. -/
theorem region_centinela (s : Estado) (d : Nat) (n : Noticia)
    (hn : n ∈ s.noticias) (hf : n.fecha = some d) (hrel : n.relevante = some 1)
    (hreg : n.region_id = none) :
    (∀ f ∈ (calcular_agregacion_region_diaria d s).agregacion_region_diaria,
      f.fecha = d → ∃ k : Int, f.region_id = some k) ∧
    (∃ f ∈ (calcular_agregacion_region_diaria d s).agregacion_region_diaria,
      f.fecha = d ∧ f.region_id = some (-1) ∧
      f.nivel_geografico = n.nivel_geografico.getD ("indeterminado") ∧
      f.total_noticias =
        (itemsRelevantesDelDia s d).countP (fun m => claveRegion m == claveRegion n)) := by
  have hmem : n ∈ itemsRelevantesDelDia s d := by
    unfold itemsRelevantesDelDia itemsDelDia
    rw [List.mem_filter, List.mem_filter]
    exact ⟨⟨hn, by simp [hf]⟩, by simp [hrel]⟩
  constructor
  · intro f hfm hfd
    unfold calcular_agregacion_region_diaria at hfm
    simp only [List.mem_append] at hfm
    rcases hfm with hfm | hfm
    · have := (List.mem_filter.mp hfm).2
      simp only [Bool.not_eq_true', beq_eq_false_iff_ne] at this
      exact absurd hfd this
    · obtain ⟨k, _, rfl⟩ := List.mem_map.mp hfm
      exact ⟨k.1, rfl⟩
  · have hk : claveRegion n ∈ ((itemsRelevantesDelDia s d).map claveRegion).dedup :=
      List.mem_dedup.mpr (List.mem_map_of_mem claveRegion hmem)
    have hsube : ∀ x, x ∈ filasRegion s d →
        x ∈ (calcular_agregacion_region_diaria d s).agregacion_region_diaria := by
      intro x hx
      show x ∈ _ ++ filasRegion s d
      exact List.mem_append_right _ hx
    refine ⟨_, hsube _ (List.mem_map_of_mem _ hk), rfl, ?_, rfl, ?_⟩
    · show some (claveRegion n).1 = some (-1)
      simp [claveRegion, hreg]
    · show ((itemsRelevantesDelDia s d).filter
          (fun m => claveRegion m == claveRegion n)).length = _
      rw [List.countP_eq_length_filter]

/-- Witness for C6 at a concrete input. -/
theorem region_centinela_testigo :
    noticiaEjemplo ∈ estadoEjemplo.noticias ∧ noticiaEjemplo.fecha = some 0 ∧
    noticiaEjemplo.relevante = some 1 ∧ noticiaEjemplo.region_id = none ∧
    (∃ f ∈ (calcular_agregacion_region_diaria 0 estadoEjemplo).agregacion_region_diaria,
      f.fecha = 0 ∧ f.region_id = some (-1) ∧
      f.nivel_geografico = noticiaEjemplo.nivel_geografico.getD ("indeterminado") ∧
      f.total_noticias = (itemsRelevantesDelDia estadoEjemplo 0).countP
        (fun m => claveRegion m == claveRegion noticiaEjemplo)) :=
  ⟨by decide, by decide, by decide, by decide,
    (region_centinela estadoEjemplo 0 noticiaEjemplo (by decide) (by decide)
      (by decide) (by decide)).2⟩

/-- C10 -- The region-dimension aggregation counts only items flagged
`relevante = 1` while the global aggregation counts all items of the
day; whenever a non-relevant item exists for the date, the sum of the
region-dimension totals is strictly below the global total. -/
theorem region_cuenta_solo_relevantes (s : Estado) (d ahora : Nat) (n0 : Noticia)
    (hn0 : n0 ∈ s.noticias) (hf0 : n0.fecha = some d) (hrel0 : n0.relevante ≠ some 1) :
    ((((ejecutar_agregaciones d ahora s).agregacion_region_diaria.filter
        (fun f => f.fecha == d)).map (fun f => f.total_noticias)).sum =
      (itemsRelevantesDelDia s d).length) ∧
    (∃ r ∈ (ejecutar_agregaciones d ahora s).agregacion_diaria,
      r.fecha = d ∧ r.total_noticias = (itemsDelDia s d).length) ∧
    ((itemsRelevantesDelDia s d).length < (itemsDelDia s d).length) := by
  have hmem : n0 ∈ itemsDelDia s d := by
    unfold itemsDelDia
    rw [List.mem_filter]
    exact ⟨hn0, by simp [hf0]⟩
  have hlt : (itemsRelevantesDelDia s d).length < (itemsDelDia s d).length := by
    unfold itemsRelevantesDelDia
    rw [← List.countP_eq_length_filter]
    have hsplit := List.length_eq_countP_add_countP
      (fun n : Noticia => n.relevante == some 1) (itemsDelDia s d)
    have hpos : 0 < (itemsDelDia s d).countP
        (fun n => decide ¬(n.relevante == some 1) = true) :=
      List.countP_pos_iff.mpr ⟨n0, hmem, by simp [hrel0]⟩
    omega
  refine ⟨?_, ?_, hlt⟩
  · rw [ejecutar_region d ahora s, List.filter_append]
    have h1 : ((s.agregacion_region_diaria.filter (fun f => !(f.fecha == d))).filter
        (fun f => f.fecha == d)) = [] := by
      rw [List.filter_filter]
      apply List.filter_eq_nil_iff.mpr
      intro a _
      by_cases h : a.fecha = d <;> simp [h]
    have h2 : (filasRegion s d).filter (fun f => f.fecha == d) = filasRegion s d := by
      apply List.filter_eq_self.mpr
      intro a ha
      simp [filasRegion_fecha s d a ha]
    rw [h1, h2, List.nil_append, filasRegion_suma_totales]
  · have hne : (itemsDelDia s d).isEmpty = false :=
      List.isEmpty_eq_false_iff_exists_mem.mpr ⟨n0, hmem⟩
    have hfg : filaGlobal s d ahora = some (filaDiariaCompleta s d ahora) := by
      unfold filaGlobal
      rw [if_neg (by simp [hne])]
    rw [ejecutar_diaria d ahora s, hfg]
    exact ⟨_, List.mem_append_right _ (List.mem_singleton.mpr rfl), rfl, rfl⟩

/-- A second item on the same date, not flagged relevant. -/
def noticiaNoRelevante : Noticia :=
  { id := 2, fecha := some 0, medio := some ("diario"), relevante := some 0,
    riesgo := 0, oportunidad := 0, requiere_analisis_profundo := 0,
    region_id := none, nivel_geografico := none }

/-- A database with one relevant and one non-relevant item on day 0. -/
def estadoMixto : Estado := ⟨[noticiaEjemplo, noticiaNoRelevante], [], [], [], [], [], [], []⟩

/-- Witness for C10 at a concrete input: the region totals sum to 1 while
the global total is 2. -/
theorem region_cuenta_solo_relevantes_testigo :
    noticiaNoRelevante ∈ estadoMixto.noticias ∧
    noticiaNoRelevante.fecha = some 0 ∧ noticiaNoRelevante.relevante ≠ some 1 ∧
    ((((ejecutar_agregaciones 0 7 estadoMixto).agregacion_region_diaria.filter
        (fun f => f.fecha == 0)).map (fun f => f.total_noticias)).sum <
      (itemsDelDia estadoMixto 0).length) := by
  refine ⟨by decide, by decide, by decide, ?_⟩
  have h := region_cuenta_solo_relevantes estadoMixto 0 7 noticiaNoRelevante
    (by decide) (by decide) (by decide)
  rw [h.1]
  exact h.2.2

/-! ### Backfill (`get_fechas_con_datos`, `backfill_agregaciones`)

`get_fechas_con_datos` is `SELECT DISTINCT DATE(fecha) FROM noticias
WHERE fecha IS NOT NULL ORDER BY fecha`: the sorted distinct dates of
the items that have one.  `backfill_agregaciones` filters them by the
optional inclusive bounds and runs `ejecutar_agregaciones` on each in
order. -/

/-- The function `get_fechas_con_datos`: sorted distinct item dates. -/
def get_fechas_con_datos (s : Estado) : List Nat :=
  List.insertionSort (· ≤ ·) (s.noticias.filterMap (fun n => n.fecha)).dedup

/-- The `for fecha in fechas_con_datos: ejecutar_agregaciones(fecha)`
loop of `backfill_agregaciones`. -/
def procesarFechas (ahora : Nat) : List Nat → Estado → Estado
  | [], s => s
  | d :: ds, s => procesarFechas ahora ds (ejecutar_agregaciones d ahora s)

/-- The date list after the two optional range filters of
`backfill_agregaciones`. -/
def fechasFiltradas (fecha_inicio fecha_fin : Option Nat) (s : Estado) : List Nat :=
  let f1 := match fecha_inicio with
    | some a => (get_fechas_con_datos s).filter (fun f => a ≤ f)
    | none => get_fechas_con_datos s
  match fecha_fin with
  | some b => f1.filter (fun f => f ≤ b)
  | none => f1

/-- The function `backfill_agregaciones` (the empty-list early return coincides with
processing the empty list). -/
def backfill_agregaciones (fecha_inicio fecha_fin : Option Nat) (ahora : Nat)
    (s : Estado) : Estado :=
  procesarFechas ahora (fechasFiltradas fecha_inicio fecha_fin s) s

/-- A date satisfies the optional inclusive bounds. -/
def enRango (fecha_inicio fecha_fin : Option Nat) (d : Nat) : Prop :=
  (∀ a, fecha_inicio = some a → a ≤ d) ∧ (∀ b, fecha_fin = some b → d ≤ b)

/-- The SUM of `total_noticias` over the rows of the global table keyed
by date `d` (the table's primary key makes this the day's total). -/
def totalDia (t : List FilaDiaria) (d : Nat) : Nat :=
  ((t.filter (fun f => f.fecha == d)).map (fun f => f.total_noticias)).sum

lemma mem_get_fechas (s : Estado) (d : Nat) :
    d ∈ get_fechas_con_datos s ↔ ∃ n ∈ s.noticias, n.fecha = some d := by
  unfold get_fechas_con_datos
  rw [List.mem_insertionSort, List.mem_dedup, List.mem_filterMap]

lemma procesarFechas_noticias (ahora : Nat) :
    ∀ (l : List Nat) (s : Estado), (procesarFechas ahora l s).noticias = s.noticias := by
  intro l
  induction l with
  | nil => intro s; rfl
  | cons d ds ih =>
    intro s
    simp only [procesarFechas]
    rw [ih]
    rfl

lemma filter_fecha_ejecutar (d ahora : Nat) (s : Estado)
    (h : (itemsDelDia s d).isEmpty = false) :
    (ejecutar_agregaciones d ahora s).agregacion_diaria.filter (fun f => f.fecha == d) =
      [filaDiariaCompleta s d ahora] := by
  rw [ejecutar_diaria d ahora s]
  unfold filaGlobal
  rw [if_neg (by simp [h]), List.filter_append]
  have h1 : (s.agregacion_diaria.filter (fun f => !(f.fecha == d))).filter
      (fun f => f.fecha == d) = [] := by
    rw [List.filter_filter]
    apply List.filter_eq_nil_iff.mpr
    intro a _
    by_cases hh : a.fecha = d <;> simp [hh]
  rw [h1, List.nil_append]
  simp [filaDiariaCompleta]

lemma filter_fecha_otra (d d' ahora : Nat) (s : Estado) (hne : d ≠ d') :
    (ejecutar_agregaciones d' ahora s).agregacion_diaria.filter (fun f => f.fecha == d) =
      s.agregacion_diaria.filter (fun f => f.fecha == d) := by
  rw [ejecutar_diaria d' ahora s]
  have hdob : (s.agregacion_diaria.filter (fun f => !(f.fecha == d'))).filter
      (fun f => f.fecha == d) = s.agregacion_diaria.filter (fun f => f.fecha == d) := by
    rw [List.filter_filter]
    apply List.filter_congr
    intro a _
    by_cases hh : a.fecha = d
    · simp [hh, hne]
    · simp [hh]
  cases hfg : filaGlobal s d' ahora with
  | none => simp
  | some r =>
    rw [List.filter_append]
    have hr : r = filaDiariaCompleta s d' ahora := by
      unfold filaGlobal at hfg
      by_cases hvacio : (itemsDelDia s d').isEmpty
      · rw [if_pos hvacio] at hfg
        exact absurd hfg (by simp)
      · rw [if_neg hvacio] at hfg
        exact (Option.some_injective _ hfg).symm
    have h2 : [r].filter (fun f => f.fecha == d) = [] := by
      subst hr
      simp [filaDiariaCompleta, Ne.symm hne]
    rw [h2, List.append_nil]
    exact hdob

lemma procesarFechas_filas_otras (ahora : Nat) :
    ∀ (l : List Nat) (s : Estado) (d : Nat), d ∉ l →
      (procesarFechas ahora l s).agregacion_diaria.filter (fun f => f.fecha == d) =
        s.agregacion_diaria.filter (fun f => f.fecha == d) := by
  intro l
  induction l with
  | nil => intro s d _; rfl
  | cons a ds ih =>
    intro s d hd
    simp only [procesarFechas]
    rw [ih _ d (fun h => hd (List.mem_cons_of_mem a h)),
      filter_fecha_otra d a ahora s (fun h => hd (h ▸ List.mem_cons_self a ds))]

lemma procesarFechas_filas (ahora : Nat) :
    ∀ (l : List Nat) (s : Estado) (d : Nat), d ∈ l →
      (itemsDelDia s d).isEmpty = false →
      (procesarFechas ahora l s).agregacion_diaria.filter (fun f => f.fecha == d) =
        [filaDiariaCompleta s d ahora] := by
  intro l
  induction l with
  | nil => intro s d hd; exact absurd hd (List.not_mem_nil d)
  | cons a ds ih =>
    intro s d hd hne
    simp only [procesarFechas]
    by_cases hmem : d ∈ ds
    · rw [ih (ejecutar_agregaciones a ahora s) d hmem hne]
      rfl
    · have hda : d = a := by
        rcases List.mem_cons.mp hd with h | h
        · exact h
        · exact absurd h hmem
      subst hda
      rw [procesarFechas_filas_otras ahora ds _ d hmem]
      exact filter_fecha_ejecutar d ahora s hne

/-- Number of items dated `d`, as a count over the dates of the items
that have one. -/
lemma longitud_filtro_fecha (l : List Noticia) (d : Nat) :
    (l.filter (fun n => n.fecha == some d)).length =
      (l.filterMap (fun n => n.fecha)).countP (fun x => decide (x = d)) := by
  induction l with
  | nil => rfl
  | cons a t ih =>
    cases hf : a.fecha with
    | none => simp [List.filterMap_cons, hf, List.filter_cons, ih]
    | some x =>
      by_cases hx : x = d
      · subst hx
        simp [List.filterMap_cons, hf, List.filter_cons, List.countP_cons, ih]
      · simp [List.filterMap_cons, hf, List.filter_cons, List.countP_cons, hx, ih]

lemma suma_cuentas_id (L : List Nat) :
    (L.dedup.map (fun k => L.countP (fun x => decide (x = k)))).sum = L.length := by
  have h := suma_cuentas_grupos (id : Nat → Nat) L
  simpa using h

/-- C9 (amended) -- `backfill_agregaciones` processes the distinct item
dates exactly once each, in ascending order; with bounds, exactly the
dates with data inside `[start, end]`.  After `backfill(None, None)`
every distinct date among the items has a global aggregate row whose
total is the day's item count, and the per-day totals sum to the number
of items that carry a date (items whose date is NULL are counted by no
day). -/
theorem backfill_fechas_y_suma (s : Estado) (ini fin : Option Nat) (ahora : Nat) :
    (fechasFiltradas ini fin s).Sorted (· ≤ ·) ∧
    (fechasFiltradas ini fin s).Nodup ∧
    (∀ d, d ∈ fechasFiltradas ini fin s ↔
      ((∃ n ∈ s.noticias, n.fecha = some d) ∧ enRango ini fin d)) ∧
    (∀ d, (∃ n ∈ s.noticias, n.fecha = some d) →
      ∃ r ∈ (backfill_agregaciones none none ahora s).agregacion_diaria,
        r.fecha = d ∧ r.total_noticias = (itemsDelDia s d).length) ∧
    (((get_fechas_con_datos s).map
        (fun d => totalDia (backfill_agregaciones none none ahora s).agregacion_diaria d)).sum =
      (s.noticias.filterMap (fun n => n.fecha)).length) := by
  have hsorted : (get_fechas_con_datos s).Sorted (· ≤ ·) :=
    List.sorted_insertionSort _ _
  have hnodup : (get_fechas_con_datos s).Nodup :=
    ((List.perm_insertionSort _ _).nodup_iff).mpr (List.nodup_dedup _)
  have hfila : ∀ d, d ∈ get_fechas_con_datos s →
      (backfill_agregaciones none none ahora s).agregacion_diaria.filter
        (fun f => f.fecha == d) = [filaDiariaCompleta s d ahora] := by
    intro d hd
    obtain ⟨n, hn, hnf⟩ := (mem_get_fechas s d).mp hd
    have hne : (itemsDelDia s d).isEmpty = false :=
      List.isEmpty_eq_false_iff_exists_mem.mpr
        ⟨n, List.mem_filter.mpr ⟨hn, by simp [hnf]⟩⟩
    exact procesarFechas_filas ahora _ s d hd hne
  refine ⟨?_, ?_, ?_, ?_, ?_⟩
  · unfold fechasFiltradas
    cases ini <;> cases fin <;>
      first
        | exact hsorted
        | exact hsorted.filter _
        | exact (hsorted.filter _).filter _
  · unfold fechasFiltradas
    cases ini <;> cases fin <;>
      first
        | exact hnodup
        | exact hnodup.filter _
        | exact (hnodup.filter _).filter _
  · intro d
    unfold fechasFiltradas
    rw [show ((∃ n ∈ s.noticias, n.fecha = some d) ↔ d ∈ get_fechas_con_datos s) from
      (mem_get_fechas s d).symm]
    cases ini <;> cases fin <;> (simp [enRango, List.mem_filter, and_assoc]; try tauto)
  · intro d hd
    have hmem := (mem_get_fechas s d).mpr hd
    have h := hfila d hmem
    have hrm : filaDiariaCompleta s d ahora ∈
        (backfill_agregaciones none none ahora s).agregacion_diaria := by
      apply List.mem_of_mem_filter (p := fun f => f.fecha == d)
      rw [h]
      exact List.mem_singleton.mpr rfl
    exact ⟨_, hrm, rfl, rfl⟩
  · have hcong : (get_fechas_con_datos s).map
        (fun d => totalDia (backfill_agregaciones none none ahora s).agregacion_diaria d) =
        (get_fechas_con_datos s).map
          (fun d => (s.noticias.filterMap (fun n => n.fecha)).countP
            (fun x => decide (x = d))) := by
      apply List.map_congr_left
      intro d hd
      rw [totalDia, hfila d hd]
      show (itemsDelDia s d).length + 0 = _
      rw [Nat.add_zero]
      exact longitud_filtro_fecha s.noticias d
    rw [hcong]
    unfold get_fechas_con_datos
    rw [((List.perm_insertionSort _ _).map _).sum_eq]
    exact suma_cuentas_id _

/-- An item whose `fecha` is NULL. -/
def noticiaSinFecha : Noticia :=
  { id := 3, fecha := none, medio := none, relevante := none, riesgo := 0,
    oportunidad := 0, requiere_analisis_profundo := 0, region_id := none,
    nivel_geografico := none }

/-- A database with one dated item and one NULL-dated item. -/
def estadoConNulo : Estado := ⟨[noticiaEjemplo, noticiaSinFecha], [], [], [], [], [], [], []⟩

/-- C9 counterexample -- with one NULL-dated item present, the per-day
totals after `backfill(None, None)` sum to 1 while the total item count
is 2: the claimed equality with the TOTAL item count fails (the sum
counts only items that have a date). -/
theorem backfill_suma_total_contraejemplo :
    ¬ (((get_fechas_con_datos estadoConNulo).map
        (fun d => totalDia
          (backfill_agregaciones none none 7 estadoConNulo).agregacion_diaria d)).sum =
      estadoConNulo.noticias.length) := by decide

/-- Witness for C9's amended theorem at a concrete input. -/
theorem backfill_fechas_y_suma_testigo :
    ((get_fechas_con_datos estadoConNulo).map
        (fun d => totalDia
          (backfill_agregaciones none none 7 estadoConNulo).agregacion_diaria d)).sum =
      (estadoConNulo.noticias.filterMap (fun n => n.fecha)).length :=
  (backfill_fechas_y_suma estadoConNulo none none 7).2.2.2.2

/-! ### Period comparison (`tendencias.comparar_periodos`)

Both SELECTs sum four columns of `agregacion_diaria` over an inclusive
date range; SQL `SUM` over no rows is NULL and the code replaces it by 0
(`actual[0] or 0`), which coincides with the empty list sum.  The SQL
values are modelled as exact rationals where the Python code computes
with floats. -/

/-- The per-period SUM of one column over the inclusive range. -/
def sumaPeriodo (t : List FilaDiaria) (ini fin : Nat) (campo : FilaDiaria → Nat) : Nat :=
  ((t.filter (fun r => ini ≤ r.fecha ∧ r.fecha ≤ fin)).map campo).sum

/-- Rounding to one decimal, Python `round(x, 1)` (tie behaviour follows
Mathlib `round`; Python float ties-to-even can differ only at exact
representable ties). -/
def redondear1 (q : ℚ) : ℚ := (round (q * 10) : ℤ) / 10

/-- The function `calc_change` inside `comparar_periodos`: the Python guard
`if previous and previous > 0` reduces to `0 < previous` on the
non-negative totals. -/
def calc_change (current previous : Nat) : Option ℚ :=
  if 0 < previous then
    some (redondear1 (((current : ℚ) - (previous : ℚ)) / (previous : ℚ) * 100))
  else none

/-- The result dictionary of `comparar_periodos` (period bounds echoed by
the code are omitted; they are copies of the inputs). -/
structure ResultadoComparacion where
  noticias_actual : Nat
  relevantes_actual : Nat
  riesgos_actual : Nat
  oportunidades_actual : Nat
  noticias_anterior : Nat
  relevantes_anterior : Nat
  riesgos_anterior : Nat
  oportunidades_anterior : Nat
  cambio_noticias : Option ℚ
  cambio_relevantes : Option ℚ
  cambio_riesgos : Option ℚ
  cambio_oportunidades : Option ℚ
deriving DecidableEq

/-- The function `comparar_periodos` from `tendencias.py`. -/
def comparar_periodos (t : List FilaDiaria)
    (periodo_actual periodo_anterior : Nat × Nat) : ResultadoComparacion :=
  let na := sumaPeriodo t periodo_actual.1 periodo_actual.2 (fun r => r.total_noticias)
  let ra := sumaPeriodo t periodo_actual.1 periodo_actual.2 (fun r => r.total_relevantes)
  let ga := sumaPeriodo t periodo_actual.1 periodo_actual.2 (fun r => r.total_riesgo)
  let oa := sumaPeriodo t periodo_actual.1 periodo_actual.2 (fun r => r.total_oportunidad)
  let nb := sumaPeriodo t periodo_anterior.1 periodo_anterior.2 (fun r => r.total_noticias)
  let rb := sumaPeriodo t periodo_anterior.1 periodo_anterior.2 (fun r => r.total_relevantes)
  let gb := sumaPeriodo t periodo_anterior.1 periodo_anterior.2 (fun r => r.total_riesgo)
  let ob := sumaPeriodo t periodo_anterior.1 periodo_anterior.2 (fun r => r.total_oportunidad)
  { noticias_actual := na, relevantes_actual := ra, riesgos_actual := ga,
    oportunidades_actual := oa,
    noticias_anterior := nb, relevantes_anterior := rb, riesgos_anterior := gb,
    oportunidades_anterior := ob,
    cambio_noticias := calc_change na nb,
    cambio_relevantes := calc_change ra rb,
    cambio_riesgos := calc_change ga gb,
    cambio_oportunidades := calc_change oa ob }

/-- C8 -- Period comparison: the percentage change of each metric is
`(current - previous) / previous * 100` rounded to one decimal when the
previous-period total is strictly positive, and is reported as `none`
(undefined: no value, no error, no infinity) whenever the previous
total is zero. -/
theorem comparar_periodos_cambio_pct (t : List FilaDiaria) (pa pb : Nat × Nat) :
    (sumaPeriodo t pb.1 pb.2 (fun r => r.total_noticias) = 0 →
      (comparar_periodos t pa pb).cambio_noticias = none) ∧
    (0 < sumaPeriodo t pb.1 pb.2 (fun r => r.total_noticias) →
      (comparar_periodos t pa pb).cambio_noticias =
        some (redondear1
          (((sumaPeriodo t pa.1 pa.2 (fun r => r.total_noticias) : ℚ) -
              (sumaPeriodo t pb.1 pb.2 (fun r => r.total_noticias) : ℚ)) /
            (sumaPeriodo t pb.1 pb.2 (fun r => r.total_noticias) : ℚ) * 100))) ∧
    (sumaPeriodo t pb.1 pb.2 (fun r => r.total_relevantes) = 0 →
      (comparar_periodos t pa pb).cambio_relevantes = none) ∧
    (0 < sumaPeriodo t pb.1 pb.2 (fun r => r.total_relevantes) →
      (comparar_periodos t pa pb).cambio_relevantes =
        some (redondear1
          (((sumaPeriodo t pa.1 pa.2 (fun r => r.total_relevantes) : ℚ) -
              (sumaPeriodo t pb.1 pb.2 (fun r => r.total_relevantes) : ℚ)) /
            (sumaPeriodo t pb.1 pb.2 (fun r => r.total_relevantes) : ℚ) * 100))) ∧
    (sumaPeriodo t pb.1 pb.2 (fun r => r.total_riesgo) = 0 →
      (comparar_periodos t pa pb).cambio_riesgos = none) ∧
    (0 < sumaPeriodo t pb.1 pb.2 (fun r => r.total_riesgo) →
      (comparar_periodos t pa pb).cambio_riesgos =
        some (redondear1
          (((sumaPeriodo t pa.1 pa.2 (fun r => r.total_riesgo) : ℚ) -
              (sumaPeriodo t pb.1 pb.2 (fun r => r.total_riesgo) : ℚ)) /
            (sumaPeriodo t pb.1 pb.2 (fun r => r.total_riesgo) : ℚ) * 100))) ∧
    (sumaPeriodo t pb.1 pb.2 (fun r => r.total_oportunidad) = 0 →
      (comparar_periodos t pa pb).cambio_oportunidades = none) ∧
    (0 < sumaPeriodo t pb.1 pb.2 (fun r => r.total_oportunidad) →
      (comparar_periodos t pa pb).cambio_oportunidades =
        some (redondear1
          (((sumaPeriodo t pa.1 pa.2 (fun r => r.total_oportunidad) : ℚ) -
              (sumaPeriodo t pb.1 pb.2 (fun r => r.total_oportunidad) : ℚ)) /
            (sumaPeriodo t pb.1 pb.2 (fun r => r.total_oportunidad) : ℚ) * 100))) := by
  refine ⟨?_, ?_, ?_, ?_, ?_, ?_, ?_, ?_⟩ <;>
    intro h <;>
    simp [comparar_periodos, calc_change, h]

/-- A one-row aggregate table: 5 items on day 0. -/
def tablaComparacion : List FilaDiaria := [⟨0, 5, 0, 0, 0, 0, 0, 0, 9⟩]

/-- Witness for C8: previous-period total 0 and current total 5 report an
undefined change. -/
theorem comparar_periodos_cambio_pct_testigo :
    sumaPeriodo tablaComparacion 1 1 (fun r => r.total_noticias) = 0 ∧
    sumaPeriodo tablaComparacion 0 0 (fun r => r.total_noticias) = 5 ∧
    (comparar_periodos tablaComparacion (0, 0) (1, 1)).cambio_noticias = none :=
  ⟨by decide, by decide,
    (comparar_periodos_cambio_pct tablaComparacion (0, 0) (1, 1)).1 (by decide)⟩

/-! ### Anomaly detection (`tendencias.detectar_anomalias`)

The trailing window returned by `get_tendencia_diaria` is a list of
daily aggregate rows.  For each of the three metrics the code computes
the sample mean and sample standard deviation (`pandas` `std`, ddof 1),
skips the metric when the deviation is zero, flags days above
`mean + t*std` as `alto` and below `mean - t*std` as `bajo`, and finally
sorts all records by date descending.

The float mean/std are modelled as exact rationals.  The threshold tests
are encoded without the square root: for `t ≥ 0`,
`v > mean + t*sqrt(var)` iff `v > mean` and `(v - mean)^2 > t^2 * var`
(theorem `umbral_alto_iff` proves this equivalence over the reals).  A
one-row window gives a NaN deviation in pandas, so no day can be
flagged; here the rational division by `length - 1 = 0` yields 0 and the
metric is skipped - the same observable outcome. -/

/-- One row of the trailing window (the columns the detector reads). -/
structure DiaMetrica where
  fecha : Nat
  total_noticias : Int
  total_riesgo : Int
  total_oportunidad : Int
deriving DecidableEq

/-- The fixed metric set `['total_noticias', 'total_riesgo',
'total_oportunidad']`. -/
inductive Metrica where
  | noticias
  | riesgo
  | oportunidad
deriving DecidableEq

/-- Column access for one metric. -/
def valorMetrica (m : Metrica) (r : DiaMetrica) : Int :=
  match m with
  | .noticias => r.total_noticias
  | .riesgo => r.total_riesgo
  | .oportunidad => r.total_oportunidad

/-- The metric list, in the code's iteration order. -/
def listaMetricas : List Metrica := [.noticias, .riesgo, .oportunidad]

/-- Sample mean (`df[metrica].mean()`). -/
def media (xs : List Int) : ℚ := (xs.sum : ℚ) / (xs.length : ℚ)

/-- Sample variance, the square of `df[metrica].std()` (ddof 1). -/
def varianzaMuestral (xs : List Int) : ℚ :=
  ((xs.map (fun x => ((x : ℚ) - media xs) ^ 2)).sum) / ((xs.length - 1 : ℕ) : ℚ)

/-- The test `value > umbral_alto`, in the square-root-free form. -/
def esAlto (df : List DiaMetrica) (m : Metrica) (t : ℚ) (r : DiaMetrica) : Bool :=
  decide (media (df.map (valorMetrica m)) < (valorMetrica m r : ℚ) ∧
    t ^ 2 * varianzaMuestral (df.map (valorMetrica m)) <
      ((valorMetrica m r : ℚ) - media (df.map (valorMetrica m))) ^ 2)

/-- The test `value < umbral_bajo`, in the square-root-free form. -/
def esBajo (df : List DiaMetrica) (m : Metrica) (t : ℚ) (r : DiaMetrica) : Bool :=
  decide ((valorMetrica m r : ℚ) < media (df.map (valorMetrica m)) ∧
    t ^ 2 * varianzaMuestral (df.map (valorMetrica m)) <
      (media (df.map (valorMetrica m)) - (valorMetrica m r : ℚ)) ^ 2)

/-- One anomaly record (date, metric, raw value, direction; the echoed
mean/std/sigma float fields of the dict are omitted). -/
structure Anomalia where
  fecha : Nat
  metrica : Metrica
  valor : Int
  tipo : String
deriving DecidableEq

/-- The records one metric contributes: none when its deviation is zero,
otherwise the high days followed by the low days. -/
def anomaliasDeMetrica (df : List DiaMetrica) (t : ℚ) (m : Metrica) : List Anomalia :=
  if varianzaMuestral (df.map (valorMetrica m)) = 0 then []
  else
    ((df.filter (esAlto df m t)).map (fun r => ⟨r.fecha, m, valorMetrica m r, "alto"⟩)) ++
    ((df.filter (esBajo df m t)).map (fun r => ⟨r.fecha, m, valorMetrica m r, "bajo"⟩))

/-- The function `detectar_anomalias`: empty window short-circuit, per-metric records,
final sort by date descending. -/
def detectar_anomalias (df : List DiaMetrica) (t : ℚ) : List Anomalia :=
  if df.isEmpty then []
  else
    List.insertionSort (fun a b => b.fecha ≤ a.fecha)
      (listaMetricas.flatMap (anomaliasDeMetrica df t))

instance : IsTotal Anomalia (fun a b => b.fecha ≤ a.fecha) :=
  ⟨fun a b => le_total b.fecha a.fecha⟩

instance : IsTrans Anomalia (fun a b => b.fecha ≤ a.fecha) :=
  ⟨fun _ _ _ hab hbc => le_trans hbc hab⟩

lemma varianzaMuestral_nonneg (xs : List Int) : 0 ≤ varianzaMuestral xs := by
  unfold varianzaMuestral
  apply div_nonneg
  · apply List.sum_nonneg
    intro x hx
    obtain ⟨y, _, rfl⟩ := List.mem_map.mp hx
    positivity
  · positivity

/-- For a nonnegative threshold, the square-root-free high test agrees
with `value > mean + t*std` over the reals. -/
lemma umbral_alto_iff (μ v t varq : ℚ) (ht : 0 ≤ t) (hvar : 0 ≤ varq) :
    (μ < v ∧ t ^ 2 * varq < (v - μ) ^ 2) ↔
      (μ : ℝ) + t * Real.sqrt (varq : ℝ) < (v : ℝ) := by
  have hs : (0 : ℝ) ≤ Real.sqrt (varq : ℝ) := Real.sqrt_nonneg _
  have hsq : Real.sqrt (varq : ℝ) ^ 2 = (varq : ℝ) :=
    Real.sq_sqrt (by exact_mod_cast hvar)
  have ht' : (0 : ℝ) ≤ (t : ℚ) := by exact_mod_cast ht
  constructor
  · rintro ⟨h1, h2⟩
    have h1' : (μ : ℝ) < v := by exact_mod_cast h1
    have h2' : ((t : ℚ) : ℝ) ^ 2 * ((varq : ℚ) : ℝ) < ((v : ℝ) - μ) ^ 2 := by
      exact_mod_cast h2
    nlinarith [mul_nonneg ht' hs, hsq, h1', h2']
  · intro h
    have h1' : (μ : ℝ) < v := by nlinarith [mul_nonneg ht' hs]
    refine ⟨by exact_mod_cast h1', ?_⟩
    have h2' : ((t : ℚ) : ℝ) ^ 2 * ((varq : ℚ) : ℝ) < ((v : ℝ) - μ) ^ 2 := by
      nlinarith [mul_nonneg ht' hs, hsq]
    exact_mod_cast h2'

/-- For a nonnegative threshold, the square-root-free low test agrees
with `value < mean - t*std` over the reals. -/
lemma umbral_bajo_iff (μ v t varq : ℚ) (ht : 0 ≤ t) (hvar : 0 ≤ varq) :
    (v < μ ∧ t ^ 2 * varq < (μ - v) ^ 2) ↔
      (v : ℝ) < (μ : ℝ) - t * Real.sqrt (varq : ℝ) := by
  have hs : (0 : ℝ) ≤ Real.sqrt (varq : ℝ) := Real.sqrt_nonneg _
  have hsq : Real.sqrt (varq : ℝ) ^ 2 = (varq : ℝ) :=
    Real.sq_sqrt (by exact_mod_cast hvar)
  have ht' : (0 : ℝ) ≤ (t : ℚ) := by exact_mod_cast ht
  constructor
  · rintro ⟨h1, h2⟩
    have h1' : (v : ℝ) < μ := by exact_mod_cast h1
    have h2' : ((t : ℚ) : ℝ) ^ 2 * ((varq : ℚ) : ℝ) < ((μ : ℝ) - v) ^ 2 := by
      exact_mod_cast h2
    nlinarith [mul_nonneg ht' hs, hsq, h1', h2']
  · intro h
    have h1' : (v : ℝ) < μ := by nlinarith [mul_nonneg ht' hs]
    refine ⟨by exact_mod_cast h1', ?_⟩
    have h2' : ((t : ℚ) : ℝ) ^ 2 * ((varq : ℚ) : ℝ) < ((μ : ℝ) - v) ^ 2 := by
      nlinarith [mul_nonneg ht' hs, hsq]
    exact_mod_cast h2'

lemma anomalia_metrica_eq (df : List DiaMetrica) (t : ℚ) (m : Metrica) :
    ∀ x ∈ anomaliasDeMetrica df t m, x.metrica = m := by
  intro x hx
  unfold anomaliasDeMetrica at hx
  split_ifs at hx
  · exact absurd hx (List.not_mem_nil x)
  · rw [List.mem_append] at hx
    rcases hx with hx | hx <;>
      · obtain ⟨r, _, rfl⟩ := List.mem_map.mp hx
        rfl

lemma mem_listaMetricas (m : Metrica) : m ∈ listaMetricas := by
  cases m <;> simp [listaMetricas]

lemma mem_flatMap_metricas (df : List DiaMetrica) (t : ℚ) (x : Anomalia) :
    x ∈ listaMetricas.flatMap (anomaliasDeMetrica df t) ↔
      x ∈ anomaliasDeMetrica df t x.metrica := by
  rw [List.mem_flatMap]
  constructor
  · rintro ⟨m, _, hm⟩
    have h := anomalia_metrica_eq df t m x hm
    rwa [h]
  · intro hx
    exact ⟨x.metrica, mem_listaMetricas _, hx⟩

lemma mem_anomalias_alto (df : List DiaMetrica) (t : ℚ) (m : Metrica) (r : DiaMetrica)
    (hr : r ∈ df) (hnd : (df.map DiaMetrica.fecha).Nodup) :
    ((⟨r.fecha, m, valorMetrica m r, "alto"⟩ : Anomalia) ∈ anomaliasDeMetrica df t m ↔
      varianzaMuestral (df.map (valorMetrica m)) ≠ 0 ∧ esAlto df m t r = true) := by
  unfold anomaliasDeMetrica
  split_ifs with hv
  · simp [hv]
  · rw [List.mem_append]
    constructor
    · rintro (hx | hx)
      · obtain ⟨r', hr', heq⟩ := List.mem_map.mp hx
        have hfe : r'.fecha = r.fecha := congrArg Anomalia.fecha heq
        have hrr : r' = r :=
          List.inj_on_of_nodup_map hnd (List.mem_of_mem_filter hr') hr hfe
        subst hrr
        exact ⟨hv, (List.mem_filter.mp hr').2⟩
      · obtain ⟨r', _, heq⟩ := List.mem_map.mp hx
        have htipo : ("bajo" : String) = "alto" := congrArg Anomalia.tipo heq
        exact absurd htipo (by decide)
    · rintro ⟨_, ha⟩
      exact Or.inl (List.mem_map.mpr ⟨r, List.mem_filter.mpr ⟨hr, ha⟩, rfl⟩)

lemma mem_anomalias_bajo (df : List DiaMetrica) (t : ℚ) (m : Metrica) (r : DiaMetrica)
    (hr : r ∈ df) (hnd : (df.map DiaMetrica.fecha).Nodup) :
    ((⟨r.fecha, m, valorMetrica m r, "bajo"⟩ : Anomalia) ∈ anomaliasDeMetrica df t m ↔
      varianzaMuestral (df.map (valorMetrica m)) ≠ 0 ∧ esBajo df m t r = true) := by
  unfold anomaliasDeMetrica
  split_ifs with hv
  · simp [hv]
  · rw [List.mem_append]
    constructor
    · rintro (hx | hx)
      · obtain ⟨r', _, heq⟩ := List.mem_map.mp hx
        have htipo : ("alto" : String) = "bajo" := congrArg Anomalia.tipo heq
        exact absurd htipo (by decide)
      · obtain ⟨r', hr', heq⟩ := List.mem_map.mp hx
        have hfe : r'.fecha = r.fecha := congrArg Anomalia.fecha heq
        have hrr : r' = r :=
          List.inj_on_of_nodup_map hnd (List.mem_of_mem_filter hr') hr hfe
        subst hrr
        exact ⟨hv, (List.mem_filter.mp hr').2⟩
    · rintro ⟨_, ha⟩
      exact Or.inr (List.mem_map.mpr ⟨r, List.mem_filter.mpr ⟨hr, ha⟩, rfl⟩)

lemma nodup_map_compuesta {α β γ : Type} (f : α → β) (g : α → γ) :
    ∀ (l : List α), (l.map f).Nodup → (∀ x y, g x = g y → f x = f y) →
      (l.map g).Nodup
  | [], _, _ => List.nodup_nil
  | a :: l, h, himp => by
    rw [List.map_cons, List.nodup_cons] at h ⊢
    refine ⟨?_, nodup_map_compuesta f g l h.2 himp⟩
    intro hga
    obtain ⟨b, hb, hba⟩ := List.mem_map.mp hga
    exact h.1 (List.mem_map.mpr ⟨b, hb, himp b a hba⟩)

/-- Within one metric, no two records share a date: the high days and the
low days are disjoint (a day cannot be both above and below the mean)
and the window's dates are distinct. -/
lemma nodup_fechas_rama (df : List DiaMetrica) (t : ℚ) (m : Metrica)
    (hnd : (df.map DiaMetrica.fecha).Nodup) :
    ((anomaliasDeMetrica df t m).map Anomalia.fecha).Nodup := by
  unfold anomaliasDeMetrica
  split_ifs
  · simp
  · rw [List.map_append, List.map_map, List.map_map]
    have e1 : (Anomalia.fecha ∘ fun r : DiaMetrica =>
        (⟨r.fecha, m, valorMetrica m r, "alto"⟩ : Anomalia)) = DiaMetrica.fecha := rfl
    have e2 : (Anomalia.fecha ∘ fun r : DiaMetrica =>
        (⟨r.fecha, m, valorMetrica m r, "bajo"⟩ : Anomalia)) = DiaMetrica.fecha := rfl
    rw [e1, e2, List.nodup_append]
    refine ⟨?_, ?_, ?_⟩
    · exact hnd.sublist ((df.filter_sublist (p := esAlto df m t)).map _)
    · exact hnd.sublist ((df.filter_sublist (p := esBajo df m t)).map _)
    · intro x hx1 hx2
      obtain ⟨r1, hr1, hx1e⟩ := List.mem_map.mp hx1
      obtain ⟨r2, hr2, hx2e⟩ := List.mem_map.mp hx2
      have hrr : r1 = r2 :=
        List.inj_on_of_nodup_map hnd (List.mem_of_mem_filter hr1)
          (List.mem_of_mem_filter hr2) (hx1e.trans hx2e.symm)
      subst hrr
      have ha := (List.mem_filter.mp hr1).2
      have hb := (List.mem_filter.mp hr2).2
      rw [esAlto, decide_eq_true_eq] at ha
      rw [esBajo, decide_eq_true_eq] at hb
      exact absurd (ha.1.trans hb.1) (lt_irrefl _)

lemma clave_metrica (df : List DiaMetrica) (t : ℚ) (m : Metrica) :
    ∀ x ∈ (anomaliasDeMetrica df t m).map (fun a => (a.fecha, a.metrica)),
      x.2 = m := by
  intro x hx
  obtain ⟨a, ha, rfl⟩ := List.mem_map.mp hx
  exact anomalia_metrica_eq df t m a ha

/-- All (date, metric) keys of the unsorted record list are distinct. -/
lemma claves_nodup (df : List DiaMetrica) (t : ℚ)
    (hnd : (df.map DiaMetrica.fecha).Nodup) :
    ((listaMetricas.flatMap (anomaliasDeMetrica df t)).map
      (fun a => (a.fecha, a.metrica))).Nodup := by
  have hbr : ∀ m, ((anomaliasDeMetrica df t m).map
      (fun a => (a.fecha, a.metrica))).Nodup := by
    intro m
    exact nodup_map_compuesta Anomalia.fecha _ _ (nodup_fechas_rama df t m hnd)
      (fun x y hxy => congrArg Prod.fst hxy)
  simp only [listaMetricas, List.flatMap_cons, List.flatMap_nil, List.append_nil]
  rw [List.map_append, List.map_append, List.nodup_append, List.nodup_append]
  refine ⟨hbr _, ⟨hbr _, hbr _, ?_⟩, ?_⟩
  · intro x hx1 hx2
    have h1 := clave_metrica df t .riesgo x hx1
    have h2 := clave_metrica df t .oportunidad x hx2
    rw [h1] at h2
    exact absurd h2 (by decide)
  · intro x hx1 hx2
    have h1 := clave_metrica df t .noticias x hx1
    rw [List.mem_append] at hx2
    rcases hx2 with hx2 | hx2
    · have h2 := clave_metrica df t .riesgo x hx2
      rw [h1] at h2
      exact absurd h2 (by decide)
    · have h2 := clave_metrica df t .oportunidad x hx2
      rw [h1] at h2
      exact absurd h2 (by decide)

/-- C7 -- Anomaly detection: for a nonnegative sigma threshold over a
window of distinct days, a day's metric yields a high record exactly
when its value exceeds `mean + t*std` and a low record exactly when it
is below `mean - t*std` (`std` the sample standard deviation, i.e. the
square root of the sample variance); metrics with zero deviation yield
no record; every flagged (day, metric) pair yields exactly one record
(distinct keys); and the output is sorted by date descending. -/
theorem detectar_anomalias_caracterizacion (df : List DiaMetrica) (t : ℚ)
    (ht : 0 ≤ t) (hnd : (df.map DiaMetrica.fecha).Nodup) :
    (∀ r ∈ df, ∀ m : Metrica,
      ((⟨r.fecha, m, valorMetrica m r, "alto"⟩ : Anomalia) ∈ detectar_anomalias df t ↔
        varianzaMuestral (df.map (valorMetrica m)) ≠ 0 ∧
          ((media (df.map (valorMetrica m)) : ℝ) +
              (t : ℝ) * Real.sqrt ((varianzaMuestral (df.map (valorMetrica m)) : ℚ) : ℝ) <
            (((valorMetrica m r : Int) : ℚ) : ℝ)))) ∧
    (∀ r ∈ df, ∀ m : Metrica,
      ((⟨r.fecha, m, valorMetrica m r, "bajo"⟩ : Anomalia) ∈ detectar_anomalias df t ↔
        varianzaMuestral (df.map (valorMetrica m)) ≠ 0 ∧
          ((((valorMetrica m r : Int) : ℚ) : ℝ) <
            (media (df.map (valorMetrica m)) : ℝ) -
              (t : ℝ) * Real.sqrt ((varianzaMuestral (df.map (valorMetrica m)) : ℚ) : ℝ)))) ∧
    (((detectar_anomalias df t).map (fun a => (a.fecha, a.metrica))).Nodup) ∧
    ((detectar_anomalias df t).Pairwise (fun a b => b.fecha ≤ a.fecha)) := by
  refine ⟨?_, ?_, ?_, ?_⟩
  · intro r hr m
    have hne : df.isEmpty = false := List.isEmpty_eq_false_iff_exists_mem.mpr ⟨r, hr⟩
    have h1 : (⟨r.fecha, m, valorMetrica m r, "alto"⟩ : Anomalia) ∈
        detectar_anomalias df t ↔
        (⟨r.fecha, m, valorMetrica m r, "alto"⟩ : Anomalia) ∈
          anomaliasDeMetrica df t m := by
      unfold detectar_anomalias
      rw [if_neg (by simp [hne]), List.mem_insertionSort]
      exact mem_flatMap_metricas df t _
    rw [h1, mem_anomalias_alto df t m r hr hnd]
    constructor
    · rintro ⟨hv, ha⟩
      rw [esAlto, decide_eq_true_eq] at ha
      exact ⟨hv, (umbral_alto_iff _ _ _ _ ht (varianzaMuestral_nonneg _)).mp ha⟩
    · rintro ⟨hv, ha⟩
      refine ⟨hv, ?_⟩
      rw [esAlto, decide_eq_true_eq]
      exact (umbral_alto_iff _ _ _ _ ht (varianzaMuestral_nonneg _)).mpr ha
  · intro r hr m
    have hne : df.isEmpty = false := List.isEmpty_eq_false_iff_exists_mem.mpr ⟨r, hr⟩
    have h1 : (⟨r.fecha, m, valorMetrica m r, "bajo"⟩ : Anomalia) ∈
        detectar_anomalias df t ↔
        (⟨r.fecha, m, valorMetrica m r, "bajo"⟩ : Anomalia) ∈
          anomaliasDeMetrica df t m := by
      unfold detectar_anomalias
      rw [if_neg (by simp [hne]), List.mem_insertionSort]
      exact mem_flatMap_metricas df t _
    rw [h1, mem_anomalias_bajo df t m r hr hnd]
    constructor
    · rintro ⟨hv, hb⟩
      rw [esBajo, decide_eq_true_eq] at hb
      exact ⟨hv, (umbral_bajo_iff _ _ _ _ ht (varianzaMuestral_nonneg _)).mp hb⟩
    · rintro ⟨hv, hb⟩
      refine ⟨hv, ?_⟩
      rw [esBajo, decide_eq_true_eq]
      exact (umbral_bajo_iff _ _ _ _ ht (varianzaMuestral_nonneg _)).mpr hb
  · unfold detectar_anomalias
    split_ifs
    · simp
    · exact (((List.perm_insertionSort _ _).map
        (fun a : Anomalia => (a.fecha, a.metrica))).nodup_iff).mpr (claves_nodup df t hnd)
  · unfold detectar_anomalias
    split_ifs
    · exact List.Pairwise.nil
    · exact List.sorted_insertionSort _ _

/-- A three-day window with totals 0, 1, 2 (mean 1, sample variance 1). -/
def ventanaEjemplo : List DiaMetrica := [⟨0, 0, 0, 0⟩, ⟨1, 1, 0, 0⟩, ⟨2, 2, 0, 0⟩]

/-- Witness for C7 at a concrete input: with threshold 1/2, day 2
(value 2 > 1 + 0.5) is flagged `alto` for the total-items metric. -/
theorem detectar_anomalias_caracterizacion_testigo :
    (0 : ℚ) ≤ 1 / 2 ∧ ((ventanaEjemplo.map DiaMetrica.fecha).Nodup) ∧
    (⟨2, Metrica.noticias, 2, "alto"⟩ : Anomalia) ∈
      detectar_anomalias ventanaEjemplo (1 / 2) := by
  refine ⟨by norm_num, by decide, ?_⟩
  have h := (detectar_anomalias_caracterizacion ventanaEjemplo (1 / 2)
    (by norm_num) (by decide)).1 ⟨2, 2, 0, 0⟩ (by decide) Metrica.noticias
  apply h.mpr
  have hxs : ventanaEjemplo.map (valorMetrica .noticias) = [0, 1, 2] := rfl
  have hmedia : media [0, 1, 2] = 1 := by norm_num [media]
  have hvar : varianzaMuestral [0, 1, 2] = 1 := by
    norm_num [varianzaMuestral, media]
  rw [hxs, hmedia, hvar]
  refine ⟨by norm_num, ?_⟩
  push_cast
  rw [Real.sqrt_one]
  norm_num [valorMetrica]

end Monitoreo
